import Mathlib

/-!
# Verification of `erc20gen` configuration logic (`internal/config/config.go`)

A shallow embedding of the `TokenConfig` data model and its operations
(`Validate`, `validateSupplyString`, `SafeName`, `ContractFileName`,
`ImportPaths`, `InheritanceList`, `NeedsOwnable`, `NeedsRoles`) into Lean.

Go strings are modeled as Lean `String` (a list of Unicode scalar values,
matching Go's rune view that `strings.Map`, `regexp.MatchString` and
`strings.ToUpper` operate on).  Arbitrary-precision `math/big.Int` values
are modeled as `Int`.

Model notes on Unicode-dependent Go library functions:
* `unicode.IsSpace` (used by `strings.TrimSpace`) is modeled exactly: the
  Unicode `White_Space` code points.
* `strings.ToUpper` is modeled by its action on the code points whose simple
  upper-case image lies in the ASCII range `A`-`Z`/`0`-`9` (the only aspect
  observable through the `^[A-Z0-9]{1,11}$` symbol pattern): ASCII `a`-`z`,
  plus U+0131 (dotless i, uppercases to `I`) and U+017F (long s, uppercases
  to `S`); every other code point is mapped to itself, which is observably
  equivalent for the symbol check since no other code point uppercases into
  `A`-`Z` or `0`-`9`.
* `unicode.IsLetter`/`unicode.IsDigit` (used by `SafeName`) are modeled
  exactly by the code point ranges of the Unicode categories Lu/Ll/Lt/Lm/Lo
  and Nd (`letterRanges`/`digitRanges`, Unicode 14.0; a Go 1.22+ toolchain
  ships Unicode 15.0 tables, which differ only on code points first assigned
  in Unicode 15.0).
* Go's `%q` quoting is modeled as surrounding double quotes; the escaping of
  special characters inside the quotes is opaque message text that no
  verified property depends on.
-/

namespace ERC20Gen

/-- Go `unicode.IsSpace`: the Unicode `White_Space` code points. -/
def goIsSpace (c : Char) : Bool :=
  let n := c.toNat
  decide ((9 ≤ n ∧ n ≤ 13) ∨ n = 32 ∨ n = 0x85 ∨ n = 0xA0 ∨ n = 0x1680 ∨
    (0x2000 ≤ n ∧ n ≤ 0x200A) ∨ n = 0x2028 ∨ n = 0x2029 ∨ n = 0x202F ∨
    n = 0x205F ∨ n = 0x3000)

/-- Go `strings.TrimSpace` on the rune list: drop leading and trailing
white space. -/
def trimSpaceList (l : List Char) : List Char :=
  ((l.dropWhile goIsSpace).reverse.dropWhile goIsSpace).reverse

/-- Go `strings.TrimSpace`. -/
def trimSpace (s : String) : String :=
  ⟨trimSpaceList s.data⟩

/-- An ASCII decimal digit (`[0-9]`, the class Go's `\d` matches). -/
def isDigitChar (c : Char) : Bool :=
  decide (48 ≤ c.toNat ∧ c.toNat ≤ 57)

/-- An ASCII upper-case letter (`[A-Z]`). -/
def isUpperChar (c : Char) : Bool :=
  decide (65 ≤ c.toNat ∧ c.toNat ≤ 90)

/-- An ASCII lower-case letter (`[a-z]`). -/
def isLowerChar (c : Char) : Bool :=
  decide (97 ≤ c.toNat ∧ c.toNat ≤ 122)

/-- Code point ranges (inclusive) of the Unicode letter categories
Lu, Ll, Lt, Lm and Lo (Unicode 14.0), the set Go's `unicode.IsLetter`
implements. -/
def letterRanges : List (Nat × Nat) := [
  (0x41, 0x5a), (0x61, 0x7a), (0xaa, 0xaa), (0xb5, 0xb5), (0xba, 0xba), (0xc0, 0xd6), (0xd8, 0xf6),
  (0xf8, 0x2c1), (0x2c6, 0x2d1), (0x2e0, 0x2e4), (0x2ec, 0x2ec), (0x2ee, 0x2ee), (0x370, 0x374),
  (0x376, 0x377), (0x37a, 0x37d), (0x37f, 0x37f), (0x386, 0x386), (0x388, 0x38a), (0x38c, 0x38c),
  (0x38e, 0x3a1), (0x3a3, 0x3f5), (0x3f7, 0x481), (0x48a, 0x52f), (0x531, 0x556), (0x559, 0x559),
  (0x560, 0x588), (0x5d0, 0x5ea), (0x5ef, 0x5f2), (0x620, 0x64a), (0x66e, 0x66f), (0x671, 0x6d3),
  (0x6d5, 0x6d5), (0x6e5, 0x6e6), (0x6ee, 0x6ef), (0x6fa, 0x6fc), (0x6ff, 0x6ff), (0x710, 0x710),
  (0x712, 0x72f), (0x74d, 0x7a5), (0x7b1, 0x7b1), (0x7ca, 0x7ea), (0x7f4, 0x7f5), (0x7fa, 0x7fa),
  (0x800, 0x815), (0x81a, 0x81a), (0x824, 0x824), (0x828, 0x828), (0x840, 0x858), (0x860, 0x86a),
  (0x870, 0x887), (0x889, 0x88e), (0x8a0, 0x8c9), (0x904, 0x939), (0x93d, 0x93d), (0x950, 0x950),
  (0x958, 0x961), (0x971, 0x980), (0x985, 0x98c), (0x98f, 0x990), (0x993, 0x9a8), (0x9aa, 0x9b0),
  (0x9b2, 0x9b2), (0x9b6, 0x9b9), (0x9bd, 0x9bd), (0x9ce, 0x9ce), (0x9dc, 0x9dd), (0x9df, 0x9e1),
  (0x9f0, 0x9f1), (0x9fc, 0x9fc), (0xa05, 0xa0a), (0xa0f, 0xa10), (0xa13, 0xa28), (0xa2a, 0xa30),
  (0xa32, 0xa33), (0xa35, 0xa36), (0xa38, 0xa39), (0xa59, 0xa5c), (0xa5e, 0xa5e), (0xa72, 0xa74),
  (0xa85, 0xa8d), (0xa8f, 0xa91), (0xa93, 0xaa8), (0xaaa, 0xab0), (0xab2, 0xab3), (0xab5, 0xab9),
  (0xabd, 0xabd), (0xad0, 0xad0), (0xae0, 0xae1), (0xaf9, 0xaf9), (0xb05, 0xb0c), (0xb0f, 0xb10),
  (0xb13, 0xb28), (0xb2a, 0xb30), (0xb32, 0xb33), (0xb35, 0xb39), (0xb3d, 0xb3d), (0xb5c, 0xb5d),
  (0xb5f, 0xb61), (0xb71, 0xb71), (0xb83, 0xb83), (0xb85, 0xb8a), (0xb8e, 0xb90), (0xb92, 0xb95),
  (0xb99, 0xb9a), (0xb9c, 0xb9c), (0xb9e, 0xb9f), (0xba3, 0xba4), (0xba8, 0xbaa), (0xbae, 0xbb9),
  (0xbd0, 0xbd0), (0xc05, 0xc0c), (0xc0e, 0xc10), (0xc12, 0xc28), (0xc2a, 0xc39), (0xc3d, 0xc3d),
  (0xc58, 0xc5a), (0xc5d, 0xc5d), (0xc60, 0xc61), (0xc80, 0xc80), (0xc85, 0xc8c), (0xc8e, 0xc90),
  (0xc92, 0xca8), (0xcaa, 0xcb3), (0xcb5, 0xcb9), (0xcbd, 0xcbd), (0xcdd, 0xcde), (0xce0, 0xce1),
  (0xcf1, 0xcf2), (0xd04, 0xd0c), (0xd0e, 0xd10), (0xd12, 0xd3a), (0xd3d, 0xd3d), (0xd4e, 0xd4e),
  (0xd54, 0xd56), (0xd5f, 0xd61), (0xd7a, 0xd7f), (0xd85, 0xd96), (0xd9a, 0xdb1), (0xdb3, 0xdbb),
  (0xdbd, 0xdbd), (0xdc0, 0xdc6), (0xe01, 0xe30), (0xe32, 0xe33), (0xe40, 0xe46), (0xe81, 0xe82),
  (0xe84, 0xe84), (0xe86, 0xe8a), (0xe8c, 0xea3), (0xea5, 0xea5), (0xea7, 0xeb0), (0xeb2, 0xeb3),
  (0xebd, 0xebd), (0xec0, 0xec4), (0xec6, 0xec6), (0xedc, 0xedf), (0xf00, 0xf00), (0xf40, 0xf47),
  (0xf49, 0xf6c), (0xf88, 0xf8c), (0x1000, 0x102a), (0x103f, 0x103f), (0x1050, 0x1055),
  (0x105a, 0x105d), (0x1061, 0x1061), (0x1065, 0x1066), (0x106e, 0x1070), (0x1075, 0x1081),
  (0x108e, 0x108e), (0x10a0, 0x10c5), (0x10c7, 0x10c7), (0x10cd, 0x10cd), (0x10d0, 0x10fa),
  (0x10fc, 0x1248), (0x124a, 0x124d), (0x1250, 0x1256), (0x1258, 0x1258), (0x125a, 0x125d),
  (0x1260, 0x1288), (0x128a, 0x128d), (0x1290, 0x12b0), (0x12b2, 0x12b5), (0x12b8, 0x12be),
  (0x12c0, 0x12c0), (0x12c2, 0x12c5), (0x12c8, 0x12d6), (0x12d8, 0x1310), (0x1312, 0x1315),
  (0x1318, 0x135a), (0x1380, 0x138f), (0x13a0, 0x13f5), (0x13f8, 0x13fd), (0x1401, 0x166c),
  (0x166f, 0x167f), (0x1681, 0x169a), (0x16a0, 0x16ea), (0x16f1, 0x16f8), (0x1700, 0x1711),
  (0x171f, 0x1731), (0x1740, 0x1751), (0x1760, 0x176c), (0x176e, 0x1770), (0x1780, 0x17b3),
  (0x17d7, 0x17d7), (0x17dc, 0x17dc), (0x1820, 0x1878), (0x1880, 0x1884), (0x1887, 0x18a8),
  (0x18aa, 0x18aa), (0x18b0, 0x18f5), (0x1900, 0x191e), (0x1950, 0x196d), (0x1970, 0x1974),
  (0x1980, 0x19ab), (0x19b0, 0x19c9), (0x1a00, 0x1a16), (0x1a20, 0x1a54), (0x1aa7, 0x1aa7),
  (0x1b05, 0x1b33), (0x1b45, 0x1b4c), (0x1b83, 0x1ba0), (0x1bae, 0x1baf), (0x1bba, 0x1be5),
  (0x1c00, 0x1c23), (0x1c4d, 0x1c4f), (0x1c5a, 0x1c7d), (0x1c80, 0x1c88), (0x1c90, 0x1cba),
  (0x1cbd, 0x1cbf), (0x1ce9, 0x1cec), (0x1cee, 0x1cf3), (0x1cf5, 0x1cf6), (0x1cfa, 0x1cfa),
  (0x1d00, 0x1dbf), (0x1e00, 0x1f15), (0x1f18, 0x1f1d), (0x1f20, 0x1f45), (0x1f48, 0x1f4d),
  (0x1f50, 0x1f57), (0x1f59, 0x1f59), (0x1f5b, 0x1f5b), (0x1f5d, 0x1f5d), (0x1f5f, 0x1f7d),
  (0x1f80, 0x1fb4), (0x1fb6, 0x1fbc), (0x1fbe, 0x1fbe), (0x1fc2, 0x1fc4), (0x1fc6, 0x1fcc),
  (0x1fd0, 0x1fd3), (0x1fd6, 0x1fdb), (0x1fe0, 0x1fec), (0x1ff2, 0x1ff4), (0x1ff6, 0x1ffc),
  (0x2071, 0x2071), (0x207f, 0x207f), (0x2090, 0x209c), (0x2102, 0x2102), (0x2107, 0x2107),
  (0x210a, 0x2113), (0x2115, 0x2115), (0x2119, 0x211d), (0x2124, 0x2124), (0x2126, 0x2126),
  (0x2128, 0x2128), (0x212a, 0x212d), (0x212f, 0x2139), (0x213c, 0x213f), (0x2145, 0x2149),
  (0x214e, 0x214e), (0x2183, 0x2184), (0x2c00, 0x2ce4), (0x2ceb, 0x2cee), (0x2cf2, 0x2cf3),
  (0x2d00, 0x2d25), (0x2d27, 0x2d27), (0x2d2d, 0x2d2d), (0x2d30, 0x2d67), (0x2d6f, 0x2d6f),
  (0x2d80, 0x2d96), (0x2da0, 0x2da6), (0x2da8, 0x2dae), (0x2db0, 0x2db6), (0x2db8, 0x2dbe),
  (0x2dc0, 0x2dc6), (0x2dc8, 0x2dce), (0x2dd0, 0x2dd6), (0x2dd8, 0x2dde), (0x2e2f, 0x2e2f),
  (0x3005, 0x3006), (0x3031, 0x3035), (0x303b, 0x303c), (0x3041, 0x3096), (0x309d, 0x309f),
  (0x30a1, 0x30fa), (0x30fc, 0x30ff), (0x3105, 0x312f), (0x3131, 0x318e), (0x31a0, 0x31bf),
  (0x31f0, 0x31ff), (0x3400, 0x4dbf), (0x4e00, 0xa48c), (0xa4d0, 0xa4fd), (0xa500, 0xa60c),
  (0xa610, 0xa61f), (0xa62a, 0xa62b), (0xa640, 0xa66e), (0xa67f, 0xa69d), (0xa6a0, 0xa6e5),
  (0xa717, 0xa71f), (0xa722, 0xa788), (0xa78b, 0xa7ca), (0xa7d0, 0xa7d1), (0xa7d3, 0xa7d3),
  (0xa7d5, 0xa7d9), (0xa7f2, 0xa801), (0xa803, 0xa805), (0xa807, 0xa80a), (0xa80c, 0xa822),
  (0xa840, 0xa873), (0xa882, 0xa8b3), (0xa8f2, 0xa8f7), (0xa8fb, 0xa8fb), (0xa8fd, 0xa8fe),
  (0xa90a, 0xa925), (0xa930, 0xa946), (0xa960, 0xa97c), (0xa984, 0xa9b2), (0xa9cf, 0xa9cf),
  (0xa9e0, 0xa9e4), (0xa9e6, 0xa9ef), (0xa9fa, 0xa9fe), (0xaa00, 0xaa28), (0xaa40, 0xaa42),
  (0xaa44, 0xaa4b), (0xaa60, 0xaa76), (0xaa7a, 0xaa7a), (0xaa7e, 0xaaaf), (0xaab1, 0xaab1),
  (0xaab5, 0xaab6), (0xaab9, 0xaabd), (0xaac0, 0xaac0), (0xaac2, 0xaac2), (0xaadb, 0xaadd),
  (0xaae0, 0xaaea), (0xaaf2, 0xaaf4), (0xab01, 0xab06), (0xab09, 0xab0e), (0xab11, 0xab16),
  (0xab20, 0xab26), (0xab28, 0xab2e), (0xab30, 0xab5a), (0xab5c, 0xab69), (0xab70, 0xabe2),
  (0xac00, 0xd7a3), (0xd7b0, 0xd7c6), (0xd7cb, 0xd7fb), (0xf900, 0xfa6d), (0xfa70, 0xfad9),
  (0xfb00, 0xfb06), (0xfb13, 0xfb17), (0xfb1d, 0xfb1d), (0xfb1f, 0xfb28), (0xfb2a, 0xfb36),
  (0xfb38, 0xfb3c), (0xfb3e, 0xfb3e), (0xfb40, 0xfb41), (0xfb43, 0xfb44), (0xfb46, 0xfbb1),
  (0xfbd3, 0xfd3d), (0xfd50, 0xfd8f), (0xfd92, 0xfdc7), (0xfdf0, 0xfdfb), (0xfe70, 0xfe74),
  (0xfe76, 0xfefc), (0xff21, 0xff3a), (0xff41, 0xff5a), (0xff66, 0xffbe), (0xffc2, 0xffc7),
  (0xffca, 0xffcf), (0xffd2, 0xffd7), (0xffda, 0xffdc), (0x10000, 0x1000b), (0x1000d, 0x10026),
  (0x10028, 0x1003a), (0x1003c, 0x1003d), (0x1003f, 0x1004d), (0x10050, 0x1005d),
  (0x10080, 0x100fa), (0x10280, 0x1029c), (0x102a0, 0x102d0), (0x10300, 0x1031f),
  (0x1032d, 0x10340), (0x10342, 0x10349), (0x10350, 0x10375), (0x10380, 0x1039d),
  (0x103a0, 0x103c3), (0x103c8, 0x103cf), (0x10400, 0x1049d), (0x104b0, 0x104d3),
  (0x104d8, 0x104fb), (0x10500, 0x10527), (0x10530, 0x10563), (0x10570, 0x1057a),
  (0x1057c, 0x1058a), (0x1058c, 0x10592), (0x10594, 0x10595), (0x10597, 0x105a1),
  (0x105a3, 0x105b1), (0x105b3, 0x105b9), (0x105bb, 0x105bc), (0x10600, 0x10736),
  (0x10740, 0x10755), (0x10760, 0x10767), (0x10780, 0x10785), (0x10787, 0x107b0),
  (0x107b2, 0x107ba), (0x10800, 0x10805), (0x10808, 0x10808), (0x1080a, 0x10835),
  (0x10837, 0x10838), (0x1083c, 0x1083c), (0x1083f, 0x10855), (0x10860, 0x10876),
  (0x10880, 0x1089e), (0x108e0, 0x108f2), (0x108f4, 0x108f5), (0x10900, 0x10915),
  (0x10920, 0x10939), (0x10980, 0x109b7), (0x109be, 0x109bf), (0x10a00, 0x10a00),
  (0x10a10, 0x10a13), (0x10a15, 0x10a17), (0x10a19, 0x10a35), (0x10a60, 0x10a7c),
  (0x10a80, 0x10a9c), (0x10ac0, 0x10ac7), (0x10ac9, 0x10ae4), (0x10b00, 0x10b35),
  (0x10b40, 0x10b55), (0x10b60, 0x10b72), (0x10b80, 0x10b91), (0x10c00, 0x10c48),
  (0x10c80, 0x10cb2), (0x10cc0, 0x10cf2), (0x10d00, 0x10d23), (0x10e80, 0x10ea9),
  (0x10eb0, 0x10eb1), (0x10f00, 0x10f1c), (0x10f27, 0x10f27), (0x10f30, 0x10f45),
  (0x10f70, 0x10f81), (0x10fb0, 0x10fc4), (0x10fe0, 0x10ff6), (0x11003, 0x11037),
  (0x11071, 0x11072), (0x11075, 0x11075), (0x11083, 0x110af), (0x110d0, 0x110e8),
  (0x11103, 0x11126), (0x11144, 0x11144), (0x11147, 0x11147), (0x11150, 0x11172),
  (0x11176, 0x11176), (0x11183, 0x111b2), (0x111c1, 0x111c4), (0x111da, 0x111da),
  (0x111dc, 0x111dc), (0x11200, 0x11211), (0x11213, 0x1122b), (0x11280, 0x11286),
  (0x11288, 0x11288), (0x1128a, 0x1128d), (0x1128f, 0x1129d), (0x1129f, 0x112a8),
  (0x112b0, 0x112de), (0x11305, 0x1130c), (0x1130f, 0x11310), (0x11313, 0x11328),
  (0x1132a, 0x11330), (0x11332, 0x11333), (0x11335, 0x11339), (0x1133d, 0x1133d),
  (0x11350, 0x11350), (0x1135d, 0x11361), (0x11400, 0x11434), (0x11447, 0x1144a),
  (0x1145f, 0x11461), (0x11480, 0x114af), (0x114c4, 0x114c5), (0x114c7, 0x114c7),
  (0x11580, 0x115ae), (0x115d8, 0x115db), (0x11600, 0x1162f), (0x11644, 0x11644),
  (0x11680, 0x116aa), (0x116b8, 0x116b8), (0x11700, 0x1171a), (0x11740, 0x11746),
  (0x11800, 0x1182b), (0x118a0, 0x118df), (0x118ff, 0x11906), (0x11909, 0x11909),
  (0x1190c, 0x11913), (0x11915, 0x11916), (0x11918, 0x1192f), (0x1193f, 0x1193f),
  (0x11941, 0x11941), (0x119a0, 0x119a7), (0x119aa, 0x119d0), (0x119e1, 0x119e1),
  (0x119e3, 0x119e3), (0x11a00, 0x11a00), (0x11a0b, 0x11a32), (0x11a3a, 0x11a3a),
  (0x11a50, 0x11a50), (0x11a5c, 0x11a89), (0x11a9d, 0x11a9d), (0x11ab0, 0x11af8),
  (0x11c00, 0x11c08), (0x11c0a, 0x11c2e), (0x11c40, 0x11c40), (0x11c72, 0x11c8f),
  (0x11d00, 0x11d06), (0x11d08, 0x11d09), (0x11d0b, 0x11d30), (0x11d46, 0x11d46),
  (0x11d60, 0x11d65), (0x11d67, 0x11d68), (0x11d6a, 0x11d89), (0x11d98, 0x11d98),
  (0x11ee0, 0x11ef2), (0x11fb0, 0x11fb0), (0x12000, 0x12399), (0x12480, 0x12543),
  (0x12f90, 0x12ff0), (0x13000, 0x1342e), (0x14400, 0x14646), (0x16800, 0x16a38),
  (0x16a40, 0x16a5e), (0x16a70, 0x16abe), (0x16ad0, 0x16aed), (0x16b00, 0x16b2f),
  (0x16b40, 0x16b43), (0x16b63, 0x16b77), (0x16b7d, 0x16b8f), (0x16e40, 0x16e7f),
  (0x16f00, 0x16f4a), (0x16f50, 0x16f50), (0x16f93, 0x16f9f), (0x16fe0, 0x16fe1),
  (0x16fe3, 0x16fe3), (0x17000, 0x187f7), (0x18800, 0x18cd5), (0x18d00, 0x18d08),
  (0x1aff0, 0x1aff3), (0x1aff5, 0x1affb), (0x1affd, 0x1affe), (0x1b000, 0x1b122),
  (0x1b150, 0x1b152), (0x1b164, 0x1b167), (0x1b170, 0x1b2fb), (0x1bc00, 0x1bc6a),
  (0x1bc70, 0x1bc7c), (0x1bc80, 0x1bc88), (0x1bc90, 0x1bc99), (0x1d400, 0x1d454),
  (0x1d456, 0x1d49c), (0x1d49e, 0x1d49f), (0x1d4a2, 0x1d4a2), (0x1d4a5, 0x1d4a6),
  (0x1d4a9, 0x1d4ac), (0x1d4ae, 0x1d4b9), (0x1d4bb, 0x1d4bb), (0x1d4bd, 0x1d4c3),
  (0x1d4c5, 0x1d505), (0x1d507, 0x1d50a), (0x1d50d, 0x1d514), (0x1d516, 0x1d51c),
  (0x1d51e, 0x1d539), (0x1d53b, 0x1d53e), (0x1d540, 0x1d544), (0x1d546, 0x1d546),
  (0x1d54a, 0x1d550), (0x1d552, 0x1d6a5), (0x1d6a8, 0x1d6c0), (0x1d6c2, 0x1d6da),
  (0x1d6dc, 0x1d6fa), (0x1d6fc, 0x1d714), (0x1d716, 0x1d734), (0x1d736, 0x1d74e),
  (0x1d750, 0x1d76e), (0x1d770, 0x1d788), (0x1d78a, 0x1d7a8), (0x1d7aa, 0x1d7c2),
  (0x1d7c4, 0x1d7cb), (0x1df00, 0x1df1e), (0x1e100, 0x1e12c), (0x1e137, 0x1e13d),
  (0x1e14e, 0x1e14e), (0x1e290, 0x1e2ad), (0x1e2c0, 0x1e2eb), (0x1e7e0, 0x1e7e6),
  (0x1e7e8, 0x1e7eb), (0x1e7ed, 0x1e7ee), (0x1e7f0, 0x1e7fe), (0x1e800, 0x1e8c4),
  (0x1e900, 0x1e943), (0x1e94b, 0x1e94b), (0x1ee00, 0x1ee03), (0x1ee05, 0x1ee1f),
  (0x1ee21, 0x1ee22), (0x1ee24, 0x1ee24), (0x1ee27, 0x1ee27), (0x1ee29, 0x1ee32),
  (0x1ee34, 0x1ee37), (0x1ee39, 0x1ee39), (0x1ee3b, 0x1ee3b), (0x1ee42, 0x1ee42),
  (0x1ee47, 0x1ee47), (0x1ee49, 0x1ee49), (0x1ee4b, 0x1ee4b), (0x1ee4d, 0x1ee4f),
  (0x1ee51, 0x1ee52), (0x1ee54, 0x1ee54), (0x1ee57, 0x1ee57), (0x1ee59, 0x1ee59),
  (0x1ee5b, 0x1ee5b), (0x1ee5d, 0x1ee5d), (0x1ee5f, 0x1ee5f), (0x1ee61, 0x1ee62),
  (0x1ee64, 0x1ee64), (0x1ee67, 0x1ee6a), (0x1ee6c, 0x1ee72), (0x1ee74, 0x1ee77),
  (0x1ee79, 0x1ee7c), (0x1ee7e, 0x1ee7e), (0x1ee80, 0x1ee89), (0x1ee8b, 0x1ee9b),
  (0x1eea1, 0x1eea3), (0x1eea5, 0x1eea9), (0x1eeab, 0x1eebb), (0x20000, 0x2a6df),
  (0x2a700, 0x2b738), (0x2b740, 0x2b81d), (0x2b820, 0x2cea1), (0x2ceb0, 0x2ebe0),
  (0x2f800, 0x2fa1d), (0x30000, 0x3134a)
]

/-- Code point ranges (inclusive) of the Unicode decimal-digit category Nd
(Unicode 14.0), the set Go's `unicode.IsDigit` implements. -/
def digitRanges : List (Nat × Nat) := [
  (0x30, 0x39), (0x660, 0x669), (0x6f0, 0x6f9), (0x7c0, 0x7c9), (0x966, 0x96f), (0x9e6, 0x9ef),
  (0xa66, 0xa6f), (0xae6, 0xaef), (0xb66, 0xb6f), (0xbe6, 0xbef), (0xc66, 0xc6f), (0xce6, 0xcef),
  (0xd66, 0xd6f), (0xde6, 0xdef), (0xe50, 0xe59), (0xed0, 0xed9), (0xf20, 0xf29), (0x1040, 0x1049),
  (0x1090, 0x1099), (0x17e0, 0x17e9), (0x1810, 0x1819), (0x1946, 0x194f), (0x19d0, 0x19d9),
  (0x1a80, 0x1a89), (0x1a90, 0x1a99), (0x1b50, 0x1b59), (0x1bb0, 0x1bb9), (0x1c40, 0x1c49),
  (0x1c50, 0x1c59), (0xa620, 0xa629), (0xa8d0, 0xa8d9), (0xa900, 0xa909), (0xa9d0, 0xa9d9),
  (0xa9f0, 0xa9f9), (0xaa50, 0xaa59), (0xabf0, 0xabf9), (0xff10, 0xff19), (0x104a0, 0x104a9),
  (0x10d30, 0x10d39), (0x11066, 0x1106f), (0x110f0, 0x110f9), (0x11136, 0x1113f),
  (0x111d0, 0x111d9), (0x112f0, 0x112f9), (0x11450, 0x11459), (0x114d0, 0x114d9),
  (0x11650, 0x11659), (0x116c0, 0x116c9), (0x11730, 0x11739), (0x118e0, 0x118e9),
  (0x11950, 0x11959), (0x11c50, 0x11c59), (0x11d50, 0x11d59), (0x11da0, 0x11da9),
  (0x16a60, 0x16a69), (0x16ac0, 0x16ac9), (0x16b50, 0x16b59), (0x1d7ce, 0x1d7ff),
  (0x1e140, 0x1e149), (0x1e2f0, 0x1e2f9), (0x1e950, 0x1e959), (0x1fbf0, 0x1fbf9)
]

/-- Go `unicode.IsLetter`: membership in the Unicode letter categories
(`letterRanges`). -/
def goIsLetter (c : Char) : Bool :=
  letterRanges.any (fun p => decide (p.1 ≤ c.toNat) && decide (c.toNat ≤ p.2))

/-- Go `unicode.IsDigit`: membership in the Unicode decimal-digit category
(`digitRanges`). -/
def goIsDigit (c : Char) : Bool :=
  digitRanges.any (fun p => decide (p.1 ≤ c.toNat) && decide (c.toNat ≤ p.2))

/-- Go `unicode.ToUpper` as observable through the `[A-Z0-9]` symbol
pattern (see the header comment): ASCII lower-case letters map to their
upper-case forms, U+0131 to `I`, U+017F to `S`, all else to itself. -/
def goToUpperChar (c : Char) : Char :=
  if c.toNat = 0x131 then 'I'
  else if c.toNat = 0x17F then 'S'
  else if isLowerChar c then Char.ofNat (c.toNat - 32)
  else c

/-- Go `strings.ToUpper` (rune-wise map). -/
def goToUpper (s : String) : String :=
  ⟨s.data.map goToUpperChar⟩

/-- A character of the class `[A-Z0-9]`. -/
def isSymbolChar (c : Char) : Bool :=
  isUpperChar c || isDigitChar c

/-- Go regexp `^[A-Z0-9]{1,11}$` (`validSymbolRe`). -/
def matchValidSymbol (s : String) : Bool :=
  decide (1 ≤ s.data.length) && decide (s.data.length ≤ 11) &&
    s.data.all isSymbolChar

/-- A character of the class `[A-Za-z0-9 _\-]`. -/
def isNameChar (c : Char) : Bool :=
  isUpperChar c || isLowerChar c || isDigitChar c || c == ' ' || c == '_' || c == '-'

/-- Go regexp `^[A-Za-z0-9 _\-]{1,64}$` (`validNameRe`). -/
def matchValidName (s : String) : Bool :=
  decide (1 ≤ s.data.length) && decide (s.data.length ≤ 64) &&
    s.data.all isNameChar

/-- Go regexp `^\d+$` (`validDecimalNum`). -/
def matchValidDecimalNum (s : String) : Bool :=
  decide (1 ≤ s.data.length) && s.data.all isDigitChar

/-- Decimal value of a digit list (most significant first). -/
def digitsToNat (l : List Char) : Nat :=
  l.foldl (fun a c => a * 10 + (c.toNat - 48)) 0

/-- Go `new(big.Int).SetString(s, 10)`: an optional ASCII sign followed by
one or more decimal digits; anything else (including surrounding white
space) yields `none` (Go: `nil, false`). -/
def bigIntSetString (s : String) : Option Int :=
  match s.data with
  | [] => none
  | a :: rest =>
      if a = '+' then
        if rest ≠ [] ∧ rest.all isDigitChar then some (Int.ofNat (digitsToNat rest))
        else none
      else if a = '-' then
        if rest ≠ [] ∧ rest.all isDigitChar then some (-(Int.ofNat (digitsToNat rest)))
        else none
      else if (a :: rest).all isDigitChar then some (Int.ofNat (digitsToNat (a :: rest)))
      else none

/-- Go `%q`: double quotes around the text (escaping not modeled, see the
header comment). -/
def goQuote (s : String) : String :=
  "\"" ++ s ++ "\""

/-- The access-control model (`AccessControlType` is a Go string type). -/
def AccessOwnable : String := "ownable"

/-- `AccessRoles`. -/
def AccessRoles : String := "roles"

/-- `AccessNone`. -/
def AccessNone : String := "none"

/-- `TokenConfig`: all parameters for ERC-20 token generation. -/
structure TokenConfig where
  Name : String
  Symbol : String
  Decimals : Nat
  InitialSupply : String
  MaxSupply : String
  Mintable : Bool
  Burnable : Bool
  Pausable : Bool
  Permit : Bool
  Snapshot : Bool
  Votes : Bool
  AccessControl : String
  License : String
  SolidityVersion : String
  WithDeploy : Bool
  WithTest : Bool
  deriving Repr, DecidableEq

/-- `validateSupplyString`: trims the input, requires `^\d+$` on the trimmed
text, parses it as a big integer and rejects negatives.  Returns `some`
error message on failure, `none` on success. -/
def validateSupplyString (s : String) : Option String :=
  let t := trimSpace s
  if ¬ matchValidDecimalNum t then
    some (goQuote t ++ " is not a valid positive integer")
  else
    match bigIntSetString t with
    | none => some (goQuote t ++ " cannot be parsed as an integer")
    | some n => if n < 0 then some "must be a non-negative integer" else none

/-- The name block of `Validate`. -/
def nameErrs (c : TokenConfig) : List String :=
  if trimSpace c.Name = "" then ["token name is required"]
  else if ¬ matchValidName c.Name then
    ["token name must be 1-64 alphanumeric characters (spaces, hyphens, underscores allowed)"]
  else []

/-- The symbol block of `Validate` (note: the pattern is matched against
`strings.ToUpper(c.Symbol)`). -/
def symbolErrs (c : TokenConfig) : List String :=
  if trimSpace c.Symbol = "" then ["token symbol is required"]
  else if ¬ matchValidSymbol (goToUpper c.Symbol) then
    ["token symbol must be 1-11 uppercase letters/digits (e.g. MTK, USDC)"]
  else []

/-- The decimals block of `Validate`. -/
def decimalsErrs (c : TokenConfig) : List String :=
  if c.Decimals > 18 then ["decimals must be between 0 and 18"] else []

/-- The initial-supply block of `Validate`. -/
def initialErrs (c : TokenConfig) : List String :=
  if c.InitialSupply ≠ "" then
    match validateSupplyString c.InitialSupply with
    | some e => ["initial supply: " ++ e]
    | none => []
  else []

/-- The message appended when the initial supply exceeds the max supply. -/
def exceedsMsg : String := "initial supply cannot exceed max supply"

/-- The max-supply block of `Validate`: the per-field supply check, then the
`initial ≤ max` comparison, which is silently skipped when either string
fails the (untrimmed) big-integer parse. -/
def maxErrs (c : TokenConfig) : List String :=
  if c.MaxSupply ≠ "" then
    (match validateSupplyString c.MaxSupply with
     | some e => ["max supply: " ++ e]
     | none => []) ++
    (if c.InitialSupply ≠ "" then
      match bigIntSetString c.InitialSupply, bigIntSetString c.MaxSupply with
      | some initial, some max => if initial > max then [exceedsMsg] else []
      | _, _ => []
     else [])
  else []

/-- The access-control block of `Validate`: the three enumerated values and
the empty string (defaulted later) are accepted; anything else errors. -/
def acErrs (c : TokenConfig) : List String :=
  if c.AccessControl = AccessOwnable ∨ c.AccessControl = AccessRoles ∨
     c.AccessControl = AccessNone ∨ c.AccessControl = "" then []
  else
    ["invalid access control type " ++ goQuote c.AccessControl ++
      " — must be: ownable, roles, or none"]

/-- The full accumulated error list of `Validate`, in source order:
name, symbol, decimals, initial supply, max supply, access control. -/
def validateErrs (c : TokenConfig) : List String :=
  nameErrs c ++ symbolErrs c ++ decimalsErrs c ++ initialErrs c ++
    maxErrs c ++ acErrs c

/-- `Validate`: accumulates the error messages and normalizes the receiver
in place (modeled by returning the updated configuration alongside the
optional joined error).  The in-place updates, in source order: default
`AccessControl` to `ownable` when empty, force `Snapshot` when `Votes`,
default `License` to `MIT`, default `SolidityVersion` to `^0.8.24`. -/
def validate (c : TokenConfig) : TokenConfig × Option String :=
  let errs := validateErrs c
  let c := { c with
    AccessControl := if c.AccessControl = "" then AccessOwnable else c.AccessControl }
  let c := { c with
    Snapshot := if c.Votes && !c.Snapshot then true else c.Snapshot }
  let c := { c with License := if c.License = "" then "MIT" else c.License }
  let c := { c with
    SolidityVersion := if c.SolidityVersion = "" then "^0.8.24" else c.SolidityVersion }
  (c, if errs = [] then none else some (String.intercalate "\n  - " errs))

/-- `SafeName`: `strings.Map` keeping letters and digits and replacing every
other rune by `_`. -/
def SafeName (c : TokenConfig) : String :=
  ⟨c.Name.data.map (fun r => if goIsLetter r || goIsDigit r then r else '_')⟩

/-- `ContractFileName`. -/
def ContractFileName (c : TokenConfig) : String :=
  SafeName c ++ ".sol"

/-- `HasAccessControl`. -/
def HasAccessControl (c : TokenConfig) : Bool :=
  c.AccessControl ≠ AccessNone

/-- `NeedsOwnable`. -/
def NeedsOwnable (c : TokenConfig) : Bool :=
  c.AccessControl = AccessOwnable

/-- `NeedsRoles`. -/
def NeedsRoles (c : TokenConfig) : Bool :=
  c.AccessControl = AccessRoles

/-- `ImportPaths`: all required OpenZeppelin import paths, built by
successive appends. -/
def ImportPaths (c : TokenConfig) : List String :=
  ["@openzeppelin/contracts/token/ERC20/ERC20.sol"] ++
  (if c.Burnable then ["@openzeppelin/contracts/token/ERC20/extensions/ERC20Burnable.sol"] else []) ++
  (if c.Pausable then
    ["@openzeppelin/contracts/token/ERC20/extensions/ERC20Pausable.sol",
     "@openzeppelin/contracts/utils/Pausable.sol"] else []) ++
  (if c.Permit then ["@openzeppelin/contracts/token/ERC20/extensions/ERC20Permit.sol"] else []) ++
  (if c.Snapshot then ["@openzeppelin/contracts/token/ERC20/extensions/ERC20Snapshot.sol"] else []) ++
  (if c.Votes then ["@openzeppelin/contracts/token/ERC20/extensions/ERC20Votes.sol"] else []) ++
  (if c.MaxSupply ≠ "" then ["@openzeppelin/contracts/token/ERC20/extensions/ERC20Capped.sol"] else []) ++
  (if NeedsOwnable c then ["@openzeppelin/contracts/access/Ownable.sol"] else []) ++
  (if NeedsRoles c then ["@openzeppelin/contracts/access/AccessControl.sol"] else [])

/-- `InheritanceList`: the Solidity inheritance list (excluding base ERC20),
built by successive appends. -/
def InheritanceList (c : TokenConfig) : List String :=
  (if c.MaxSupply ≠ "" then ["ERC20Capped"] else []) ++
  (if c.Burnable then ["ERC20Burnable"] else []) ++
  (if c.Pausable then ["ERC20Pausable"] else []) ++
  (if c.Permit then ["ERC20Permit"] else []) ++
  (if c.Snapshot then ["ERC20Snapshot"] else []) ++
  (if c.Votes then ["ERC20Votes"] else []) ++
  (if NeedsOwnable c then ["Ownable"] else []) ++
  (if NeedsRoles c then ["AccessControl"] else [])

/-- A baseline valid configuration used for concrete instances. -/
def cfgBase : TokenConfig :=
  { Name := "MyToken", Symbol := "MTK", Decimals := 18,
    InitialSupply := "1000", MaxSupply := "", Mintable := false,
    Burnable := false, Pausable := false, Permit := false,
    Snapshot := false, Votes := false, AccessControl := "ownable",
    License := "MIT", SolidityVersion := "^0.8.24",
    WithDeploy := false, WithTest := false }

/-- A configuration whose symbol is lower-case. -/
def cfgSymbolLower : TokenConfig :=
  { cfgBase with Symbol := "abc" }

/-- A configuration whose initial supply carries whitespace around the
digits and numerically exceeds the max supply. -/
def cfgWhitespaceSupply : TokenConfig :=
  { cfgBase with InitialSupply := " 9 ", MaxSupply := "1" }

/-- A configuration whose initial supply exceeds the max supply. -/
def cfgExceeds : TokenConfig :=
  { cfgBase with InitialSupply := "10", MaxSupply := "2" }

/-- A valid but un-normalized configuration. -/
def cfgRaw : TokenConfig :=
  { cfgBase with
      Votes := true
      Snapshot := false
      AccessControl := ""
      License := ""
      SolidityVersion := "" }

/-- The normalized form of `cfgRaw`. -/
def cfgNorm : TokenConfig :=
  { cfgBase with
      Votes := true
      Snapshot := true
      AccessControl := "ownable"
      License := "MIT"
      SolidityVersion := "^0.8.24" }

/-! ## Helper lemmas -/

/-- A list whose trim is empty is all white space. -/
lemma all_space_of_trimSpaceList_nil {l : List Char} (h : trimSpaceList l = []) :
    ∀ a ∈ l, goIsSpace a = true := by
  have h1 : (l.dropWhile goIsSpace).reverse.dropWhile goIsSpace = [] := by
    simpa [trimSpaceList] using congrArg List.reverse h
  have h2 : ∀ a ∈ (l.dropWhile goIsSpace).reverse, goIsSpace a :=
    List.dropWhile_eq_nil_iff.mp h1
  have h3 : ∀ a ∈ l.dropWhile goIsSpace, goIsSpace a = true :=
    fun a ha => h2 a (List.mem_reverse.mpr ha)
  intro a ha
  rw [← List.takeWhile_append_dropWhile (p := goIsSpace) (l := l)] at ha
  rcases List.mem_append.mp ha with h4 | h4
  · exact List.mem_takeWhile_imp h4
  · exact h3 a h4

/-- A white-space character never uppercases into the `[A-Z0-9]` class. -/
lemma space_not_symbolChar {a : Char} (h : goIsSpace a = true) :
    isSymbolChar (goToUpperChar a) = false := by
  simp only [goIsSpace, decide_eq_true_eq] at h
  unfold goToUpperChar
  split_ifs with h1 h2 h3
  · exfalso; omega
  · exfalso; omega
  · exfalso
    simp only [isLowerChar, decide_eq_true_eq] at h3
    omega
  · simp only [isSymbolChar, isUpperChar, isDigitChar, Bool.or_eq_false_iff,
      decide_eq_false_iff_not]
    omega

/-- A digit is not white space. -/
lemma digit_not_space {a : Char} (h : isDigitChar a = true) : goIsSpace a = false := by
  simp only [isDigitChar, decide_eq_true_eq] at h
  simp only [goIsSpace, decide_eq_false_iff_not]
  omega

/-- `dropWhile` is the identity when no element satisfies the predicate. -/
lemma dropWhile_eq_self_of_all_false {p : Char → Bool} {l : List Char}
    (h : ∀ a ∈ l, p a = false) : l.dropWhile p = l := by
  cases l with
  | nil => rfl
  | cons a t => exact List.dropWhile_cons_of_neg (by simp [h a (List.mem_cons_self a t)])

/-- Trimming is the identity on all-digit lists. -/
lemma trimSpaceList_eq_self_of_digits {l : List Char} (h : l.all isDigitChar = true) :
    trimSpaceList l = l := by
  have h' : ∀ a ∈ l, goIsSpace a = false :=
    fun a ha => digit_not_space (List.all_eq_true.mp h a ha)
  unfold trimSpaceList
  rw [dropWhile_eq_self_of_all_false h',
    dropWhile_eq_self_of_all_false (fun a ha => h' a (List.mem_reverse.mp ha)),
    List.reverse_reverse]

/-- `trimSpace` is the identity on all-digit strings. -/
lemma trimSpace_eq_self_of_digits {s : String} (h : s.data.all isDigitChar = true) :
    trimSpace s = s := by
  obtain ⟨l⟩ := s
  show String.mk (trimSpaceList l) = String.mk l
  rw [trimSpaceList_eq_self_of_digits h]

/-- Membership in a conditional singleton list. -/
lemma mem_ite_singleton {α : Type} {a x : α} {p : Prop} [Decidable p] :
    a ∈ (if p then [x] else []) ↔ p ∧ a = x := by
  split <;> simp_all

/-- Membership in a conditional two-element list. -/
lemma mem_ite_pair {α : Type} {a x y : α} {p : Prop} [Decidable p] :
    a ∈ (if p then [x, y] else []) ↔ p ∧ (a = x ∨ a = y) := by
  split <;> simp_all

/-- The second component of `validate` is the joined error list, or `none`
when the list is empty. -/
lemma validate_snd (c : TokenConfig) :
    (validate c).2 = if validateErrs c = [] then none
      else some (String.intercalate "\n  - " (validateErrs c)) := rfl

/-! ## C1: inheritance list -/

/-- C1: for every configuration, `InheritanceList` returns the entries in
exactly this order: capped first iff `MaxSupply` is non-empty, then
burnable, pausable, permit, snapshot, votes (each present iff its flag is
true), and the access-control entry (`Ownable` for `ownable`,
`AccessControl` for `roles`, none otherwise) last; at most one
access-control entry ever appears. -/
theorem inheritanceList_ordered_single_ac (c : TokenConfig) :
    InheritanceList c =
      (if c.MaxSupply ≠ "" then ["ERC20Capped"] else []) ++
      (if c.Burnable then ["ERC20Burnable"] else []) ++
      (if c.Pausable then ["ERC20Pausable"] else []) ++
      (if c.Permit then ["ERC20Permit"] else []) ++
      (if c.Snapshot then ["ERC20Snapshot"] else []) ++
      (if c.Votes then ["ERC20Votes"] else []) ++
      (if c.AccessControl = AccessOwnable then ["Ownable"]
       else if c.AccessControl = AccessRoles then ["AccessControl"] else []) ∧
    ¬("Ownable" ∈ InheritanceList c ∧ "AccessControl" ∈ InheritanceList c) := by
  constructor
  · rcases eq_or_ne c.AccessControl "ownable" with h1 | h1
    · simp [InheritanceList, NeedsOwnable, NeedsRoles, h1, AccessOwnable, AccessRoles]
    · rcases eq_or_ne c.AccessControl "roles" with h2 | h2 <;>
        simp [InheritanceList, NeedsOwnable, NeedsRoles, h1, h2, AccessOwnable, AccessRoles]
  · rintro ⟨hO, hR⟩
    simp only [InheritanceList, NeedsOwnable, NeedsRoles, List.mem_append,
      mem_ite_singleton] at hO hR
    simp only [AccessOwnable, AccessRoles] at hO hR
    have h1 : c.AccessControl = "ownable" := by simp_all
    have h2 : c.AccessControl = "roles" := by simp_all
    rw [h1] at h2
    exact absurd h2 (by simp)

/-! ## C2: import paths -/

/-- C2: for every configuration, `ImportPaths` starts with the base ERC20
entry (present exactly once), followed in fixed order by the burnable
entry, the two pausable entries, the permit, snapshot and votes entries
(each gated by its flag), the capped entry iff `MaxSupply` is non-empty,
and finally the `Ownable` entry for `ownable` or the `AccessControl`
entry for `roles`, never both and neither for `none`. -/
theorem importPaths_base_first_fixed_order (c : TokenConfig) :
    ImportPaths c =
      "@openzeppelin/contracts/token/ERC20/ERC20.sol" ::
      ((if c.Burnable then ["@openzeppelin/contracts/token/ERC20/extensions/ERC20Burnable.sol"] else []) ++
       (if c.Pausable then
         ["@openzeppelin/contracts/token/ERC20/extensions/ERC20Pausable.sol",
          "@openzeppelin/contracts/utils/Pausable.sol"] else []) ++
       (if c.Permit then ["@openzeppelin/contracts/token/ERC20/extensions/ERC20Permit.sol"] else []) ++
       (if c.Snapshot then ["@openzeppelin/contracts/token/ERC20/extensions/ERC20Snapshot.sol"] else []) ++
       (if c.Votes then ["@openzeppelin/contracts/token/ERC20/extensions/ERC20Votes.sol"] else []) ++
       (if c.MaxSupply ≠ "" then ["@openzeppelin/contracts/token/ERC20/extensions/ERC20Capped.sol"] else []) ++
       (if c.AccessControl = AccessOwnable then ["@openzeppelin/contracts/access/Ownable.sol"]
        else if c.AccessControl = AccessRoles then ["@openzeppelin/contracts/access/AccessControl.sol"]
        else [])) ∧
    (ImportPaths c).count "@openzeppelin/contracts/token/ERC20/ERC20.sol" = 1 ∧
    ¬("@openzeppelin/contracts/access/Ownable.sol" ∈ ImportPaths c ∧
      "@openzeppelin/contracts/access/AccessControl.sol" ∈ ImportPaths c) := by
  refine ⟨?_, ?_, ?_⟩
  · rcases eq_or_ne c.AccessControl "ownable" with h1 | h1
    · simp [ImportPaths, NeedsOwnable, NeedsRoles, h1, AccessOwnable, AccessRoles]
    · rcases eq_or_ne c.AccessControl "roles" with h2 | h2 <;>
        simp [ImportPaths, NeedsOwnable, NeedsRoles, h1, h2, AccessOwnable, AccessRoles]
  · simp only [ImportPaths, List.count_append, List.singleton_append, List.count_cons]
    rw [List.count_eq_zero_of_not_mem, List.count_eq_zero_of_not_mem,
      List.count_eq_zero_of_not_mem, List.count_eq_zero_of_not_mem,
      List.count_eq_zero_of_not_mem, List.count_eq_zero_of_not_mem,
      List.count_eq_zero_of_not_mem, List.count_eq_zero_of_not_mem] <;>
      simp [mem_ite_singleton, mem_ite_pair]
  · rintro ⟨hO, hR⟩
    simp only [ImportPaths, List.mem_append, mem_ite_singleton, mem_ite_pair,
      NeedsOwnable, NeedsRoles, AccessOwnable, AccessRoles, List.mem_singleton] at hO hR
    have h1 : c.AccessControl = "ownable" := by simp_all
    have h2 : c.AccessControl = "roles" := by simp_all
    rw [h1] at h2
    exact absurd h2 (by simp)

/-! ## C6: normalization applied in place, error or not -/

/-- C6: after `Validate` returns — whether it succeeds or fails — the
defaults are applied: `AccessControl` becomes `ownable` when it was empty,
`License` becomes `MIT` when it was empty, `SolidityVersion` becomes
`^0.8.24` when it was empty, and `Snapshot` holds whenever `Votes` does
(expressed as the exact update `Snapshot ∨ Votes`). -/
theorem validate_normalizes_in_place (c : TokenConfig) :
    ((validate c).1.AccessControl =
      (if c.AccessControl = "" then AccessOwnable else c.AccessControl)) ∧
    ((validate c).1.License = (if c.License = "" then "MIT" else c.License)) ∧
    ((validate c).1.SolidityVersion =
      (if c.SolidityVersion = "" then "^0.8.24" else c.SolidityVersion)) ∧
    ((validate c).1.Snapshot = (c.Snapshot || c.Votes)) := by
  refine ⟨rfl, rfl, rfl, ?_⟩
  show (if c.Votes && !c.Snapshot then true else c.Snapshot) = (c.Snapshot || c.Votes)
  cases c.Votes <;> cases c.Snapshot <;> rfl

/-! ## C10: frame of Validate -/

/-- C10: `Validate` mutates at most `AccessControl`, `Snapshot`, `License`
and `SolidityVersion`: the twelve remaining fields are returned
unchanged, whether validation succeeds or fails. -/
theorem validate_frame (c : TokenConfig) :
    (validate c).1.Name = c.Name ∧
    (validate c).1.Symbol = c.Symbol ∧
    (validate c).1.Decimals = c.Decimals ∧
    (validate c).1.InitialSupply = c.InitialSupply ∧
    (validate c).1.MaxSupply = c.MaxSupply ∧
    (validate c).1.Mintable = c.Mintable ∧
    (validate c).1.Burnable = c.Burnable ∧
    (validate c).1.Pausable = c.Pausable ∧
    (validate c).1.Permit = c.Permit ∧
    (validate c).1.Votes = c.Votes ∧
    (validate c).1.WithDeploy = c.WithDeploy ∧
    (validate c).1.WithTest = c.WithTest :=
  ⟨rfl, rfl, rfl, rfl, rfl, rfl, rfl, rfl, rfl, rfl, rfl, rfl⟩

/-! ## C8: SafeName and ContractFileName -/

/-- C8: `SafeName` keeps every alphanumeric character of the token name
unchanged and replaces every other character by an underscore, preserving
the length; `ContractFileName` is exactly `SafeName` followed by `.sol`. -/
theorem safeName_replaces_nonalnum (c : TokenConfig) :
    (SafeName c).data.length = c.Name.data.length ∧
    (∀ i : Nat, (SafeName c).data.getD i '_' =
      (if goIsLetter (c.Name.data.getD i '_') || goIsDigit (c.Name.data.getD i '_')
       then c.Name.data.getD i '_' else '_')) ∧
    ContractFileName c = SafeName c ++ ".sol" := by
  refine ⟨by simp [SafeName], ?_, rfl⟩
  intro i
  rcases hx : c.Name.data[i]? with _ | a
  · simp [SafeName, List.getD_eq_getElem?_getD, hx]
  · simp [SafeName, List.getD_eq_getElem?_getD, hx]

set_option maxRecDepth 8192 in
/-- `SafeName` keeps non-ASCII Unicode letters, as `unicode.IsLetter`
does (here `é` and CJK ideographs), while replacing the space. -/
lemma safeName_keeps_unicode_letters :
    SafeName { cfgBase with Name := "Café 東京" } = "Café_東京" := by decide

/-! ## C4: accumulation and stable order of validation errors -/

/-- C4: `Validate` does not short-circuit: it succeeds exactly when every
per-field rule block is satisfied, and otherwise fails with all accumulated
messages joined in field-declaration order (name, symbol, decimals,
initial supply, max supply, access control). -/
theorem validate_accumulates_all (c : TokenConfig) :
    ((validate c).2 = none ↔
      nameErrs c = [] ∧ symbolErrs c = [] ∧ decimalsErrs c = [] ∧
      initialErrs c = [] ∧ maxErrs c = [] ∧ acErrs c = []) ∧
    ((validate c).2 = none ∨
      (validate c).2 = some (String.intercalate "\n  - "
        (nameErrs c ++ symbolErrs c ++ decimalsErrs c ++ initialErrs c ++
          maxErrs c ++ acErrs c))) := by
  have hiff : validateErrs c = [] ↔
      (nameErrs c = [] ∧ symbolErrs c = [] ∧ decimalsErrs c = [] ∧
        initialErrs c = [] ∧ maxErrs c = [] ∧ acErrs c = []) := by
    simp [validateErrs, List.append_eq_nil, and_assoc]
  constructor
  · rw [validate_snd]
    rcases eq_or_ne (validateErrs c) [] with h | h
    · simp [h, hiff.mp h]
    · have : ¬ (nameErrs c = [] ∧ symbolErrs c = [] ∧ decimalsErrs c = [] ∧
          initialErrs c = [] ∧ maxErrs c = [] ∧ acErrs c = []) :=
        fun hc => h (hiff.mpr hc)
      simp [h, this]
  · rw [validate_snd]
    rcases eq_or_ne (validateErrs c) [] with h | h
    · simp [h]
    · right
      rw [if_neg h]
      simp only [validateErrs]

/-! ## C5: symbol pattern -/

/-- C5 counterexample: the symbol `abc` is non-empty and does not match
`^[A-Z0-9]{1,11}$`, yet `Validate` reports no symbol error at all (the
pattern is matched against the upper-cased symbol): the claim as stated is
false. -/
theorem symbol_pattern_counterexample :
    cfgSymbolLower.Symbol = "abc" ∧
    cfgSymbolLower.Symbol ≠ "" ∧
    matchValidSymbol cfgSymbolLower.Symbol = false ∧
    symbolErrs cfgSymbolLower = [] ∧
    (validate cfgSymbolLower).2 = none := by
  refine ⟨rfl, by decide, by decide, by decide, by decide⟩

/-- C5 (amended): `Validate` reports no symbol error exactly when the
symbol, upper-cased as Go's `strings.ToUpper` does, matches
`^[A-Z0-9]{1,11}$`; equivalently the symbol error block is non-empty iff
the upper-cased symbol fails the pattern (the all-whitespace and empty
cases also fail it and are reported as a missing symbol). -/
theorem symbolErrs_empty_iff_uppercased_match (c : TokenConfig) :
    symbolErrs c = [] ↔ matchValidSymbol (goToUpper c.Symbol) = true := by
  by_cases hts : trimSpace c.Symbol = ""
  · have hnil : trimSpaceList c.Symbol.data = [] := congrArg String.data hts
    have hsp := all_space_of_trimSpaceList_nil hnil
    have hm : matchValidSymbol (goToUpper c.Symbol) = false := by
      rcases hd : c.Symbol.data with _ | ⟨a, t⟩
      · simp [matchValidSymbol, goToUpper, hd]
      · have ha := hsp a (by rw [hd]; exact List.mem_cons_self a t)
        simp [matchValidSymbol, goToUpper, hd, space_not_symbolChar ha]
    simp [symbolErrs, hts, hm]
  · by_cases hm : matchValidSymbol (goToUpper c.Symbol) = true
    · simp [symbolErrs, hts, hm]
    · simp [symbolErrs, hts, hm]

/-! ## C3: numeric comparison of initial and max supply -/

/-- On a non-empty all-digit string, `big.Int.SetString` yields its decimal
value. -/
lemma bigIntSetString_digits {s : String} (h1 : s.data ≠ [])
    (h2 : s.data.all isDigitChar = true) :
    bigIntSetString s = some (Int.ofNat (digitsToNat s.data)) := by
  rcases hd : s.data with _ | ⟨a, t⟩
  · exact absurd hd h1
  · have h2' : (a :: t).all isDigitChar = true := hd ▸ h2
    have ha : isDigitChar a = true := List.all_eq_true.mp h2' a (List.mem_cons_self a t)
    have hap : a ≠ '+' := fun e => by rw [e] at ha; exact absurd ha (by decide)
    have ham : a ≠ '-' := fun e => by rw [e] at ha; exact absurd ha (by decide)
    unfold bigIntSetString
    rw [hd]
    simp [hap, ham, h2']

/-- On a non-empty all-digit string, the per-field supply check passes. -/
lemma validateSupplyString_digits {s : String} (h1 : s.data ≠ [])
    (h2 : s.data.all isDigitChar = true) :
    validateSupplyString s = none := by
  have hlen : 1 ≤ s.data.length :=
    Nat.one_le_iff_ne_zero.mpr (fun e => h1 (List.length_eq_zero.mp e))
  have hlen' : 1 ≤ s.length := hlen
  have hm : matchValidDecimalNum s = true := by
    simp [matchValidDecimalNum, h2, hlen, hlen']
  simp only [validateSupplyString, trimSpace_eq_self_of_digits h2, hm,
    bigIntSetString_digits h1 h2]
  simp

/-- The exceeds-max-supply message differs from every access-control
message. -/
lemma exceeds_ne_ac_msg (x y : String) :
    exceedsMsg ≠ "invalid access control type " ++ x ++ y := by
  intro h
  have h2 := congrArg (fun s : String => s.data[2]?) h
  simp only [String.data_append, List.append_assoc] at h2
  rw [List.getElem?_append_left (by decide)] at h2
  exact absurd h2 (by decide)

/-- The exceeds-max-supply message never comes from the name block. -/
lemma exceeds_not_mem_nameErrs (c : TokenConfig) : exceedsMsg ∉ nameErrs c := by
  unfold nameErrs
  split_ifs <;> simp [exceedsMsg]

/-- The exceeds-max-supply message never comes from the symbol block. -/
lemma exceeds_not_mem_symbolErrs (c : TokenConfig) : exceedsMsg ∉ symbolErrs c := by
  unfold symbolErrs
  split_ifs <;> simp [exceedsMsg]

/-- The exceeds-max-supply message never comes from the decimals block. -/
lemma exceeds_not_mem_decimalsErrs (c : TokenConfig) : exceedsMsg ∉ decimalsErrs c := by
  unfold decimalsErrs
  split_ifs <;> simp [exceedsMsg]

/-- The exceeds-max-supply message never comes from the access-control
block. -/
lemma exceeds_not_mem_acErrs (c : TokenConfig) : exceedsMsg ∉ acErrs c := by
  unfold acErrs
  split_ifs with h
  · simp
  · simp only [List.mem_singleton]
    exact exceeds_ne_ac_msg (goQuote c.AccessControl)
      " — must be: ownable, roles, or none"

/-- C3: for configurations whose `InitialSupply` and `MaxSupply` are both
non-empty decimal digit strings, `Validate` fails with the
exceeds-max-supply message exactly when the initial supply's numeric value
(arbitrary precision) exceeds the max supply's; when it is less than or
equal, no such message is produced anywhere in the report. -/
theorem initial_exceeds_max_reported (c : TokenConfig)
    (hI : matchValidDecimalNum c.InitialSupply = true)
    (hM : matchValidDecimalNum c.MaxSupply = true) :
    (digitsToNat c.MaxSupply.data < digitsToNat c.InitialSupply.data →
      exceedsMsg ∈ validateErrs c ∧ (validate c).2 ≠ none) ∧
    (digitsToNat c.InitialSupply.data ≤ digitsToNat c.MaxSupply.data →
      exceedsMsg ∉ validateErrs c) := by
  simp only [matchValidDecimalNum, Bool.and_eq_true, decide_eq_true_eq] at hI hM
  obtain ⟨hIlen, hIall⟩ := hI
  obtain ⟨hMlen, hMall⟩ := hM
  have hIne : c.InitialSupply.data ≠ [] := by
    intro e; rw [e] at hIlen; simp at hIlen
  have hMne : c.MaxSupply.data ≠ [] := by
    intro e; rw [e] at hMlen; simp at hMlen
  have hIne' : c.InitialSupply ≠ "" := fun e => hIne (by simp [e])
  have hMne' : c.MaxSupply ≠ "" := fun e => hMne (by simp [e])
  have hinit : initialErrs c = [] := by
    simp [initialErrs, hIne', validateSupplyString_digits hIne hIall]
  have hmax : maxErrs c =
      (if Int.ofNat (digitsToNat c.MaxSupply.data) <
          Int.ofNat (digitsToNat c.InitialSupply.data)
       then [exceedsMsg] else []) := by
    simp [maxErrs, hMne', hIne', validateSupplyString_digits hMne hMall,
      bigIntSetString_digits hIne hIall, bigIntSetString_digits hMne hMall]
  constructor
  · intro hgt
    have hcond : Int.ofNat (digitsToNat c.MaxSupply.data) <
        Int.ofNat (digitsToNat c.InitialSupply.data) := Int.ofNat_lt.mpr hgt
    have hmem : exceedsMsg ∈ validateErrs c := by
      simp only [validateErrs, List.mem_append]
      left; right
      rw [hmax, if_pos hcond]
      exact List.mem_singleton_self _
    refine ⟨hmem, ?_⟩
    rw [validate_snd]
    simp [List.ne_nil_of_mem hmem]
  · intro hle
    have hcond : ¬ (Int.ofNat (digitsToNat c.MaxSupply.data) <
        Int.ofNat (digitsToNat c.InitialSupply.data)) :=
      fun hc => absurd (Int.ofNat_lt.mp hc) (not_lt.mpr hle)
    simp only [validateErrs, List.mem_append, hmax]
    rw [if_neg hcond]
    simp [hinit, exceeds_not_mem_nameErrs c, exceeds_not_mem_symbolErrs c,
      exceeds_not_mem_decimalsErrs c, exceeds_not_mem_acErrs c]

/-- C3 witness: at `InitialSupply = "10"`, `MaxSupply = "2"`, the theorem
applies and `Validate` fails with the exceeds-max-supply message. -/
theorem initial_exceeds_max_reported_witness :
    exceedsMsg ∈ validateErrs cfgExceeds ∧ (validate cfgExceeds).2 ≠ none :=
  (initial_exceeds_max_reported cfgExceeds (by decide) (by decide)).1 (by decide)

/-! ## C9: whitespace silently skips the supply comparison -/

/-- C9: with `InitialSupply = " 9 "` and `MaxSupply = "1"`, whose trimmed
initial value 9 numerically exceeds the max value 1, `Validate`
nevertheless succeeds: the per-field supply check passes (it trims before
matching) while the untrimmed big-integer parse inside the
initial-versus-max comparison fails, so the exceeds check is skipped. -/
theorem whitespace_supply_comparison_skipped :
    cfgWhitespaceSupply.InitialSupply = " 9 " ∧
    cfgWhitespaceSupply.MaxSupply = "1" ∧
    (validate cfgWhitespaceSupply).2 = none ∧
    digitsToNat cfgWhitespaceSupply.MaxSupply.data <
      digitsToNat (trimSpace cfgWhitespaceSupply.InitialSupply).data ∧
    validateSupplyString cfgWhitespaceSupply.InitialSupply = none ∧
    bigIntSetString cfgWhitespaceSupply.InitialSupply = none := by
  decide

/-! ## C7: votes/snapshot coupling and idempotence of Validate -/

/-- The snapshot flag after `validate` is the disjunction of the old flag
with the votes flag. -/
lemma validate_Snapshot_eq (c : TokenConfig) :
    (validate c).1.Snapshot = (c.Snapshot || c.Votes) := by
  show (if c.Votes && !c.Snapshot then true else c.Snapshot) = (c.Snapshot || c.Votes)
  cases c.Votes <;> cases c.Snapshot <;> rfl

/-- Field-wise extensionality for `TokenConfig`. -/
lemma tokenConfig_eq_of_fields {a b : TokenConfig}
    (h1 : a.Name = b.Name) (h2 : a.Symbol = b.Symbol)
    (h3 : a.Decimals = b.Decimals) (h4 : a.InitialSupply = b.InitialSupply)
    (h5 : a.MaxSupply = b.MaxSupply) (h6 : a.Mintable = b.Mintable)
    (h7 : a.Burnable = b.Burnable) (h8 : a.Pausable = b.Pausable)
    (h9 : a.Permit = b.Permit) (h10 : a.Snapshot = b.Snapshot)
    (h11 : a.Votes = b.Votes) (h12 : a.AccessControl = b.AccessControl)
    (h13 : a.License = b.License) (h14 : a.SolidityVersion = b.SolidityVersion)
    (h15 : a.WithDeploy = b.WithDeploy) (h16 : a.WithTest = b.WithTest) :
    a = b := by
  cases a; cases b; simp_all

/-- C7: `Validate` sets `Snapshot` whenever `Votes` is set (the flag
becomes `Snapshot ∨ Votes`), the error report never depends on the
votes/snapshot flags (so the coupling is auto-corrected, not rejected),
and a successful `Validate` is idempotent: re-validating its normalized
result changes no field and again returns no error. -/
theorem votes_snapshot_coupling_idempotent (c c' : TokenConfig) (v s : Bool) :
    ((validate c).1.Snapshot = (c.Snapshot || c.Votes)) ∧
    (validateErrs { c with Votes := v, Snapshot := s } = validateErrs c) ∧
    (validate c = (c', none) → validate c' = (c', none)) := by
  refine ⟨validate_Snapshot_eq c, rfl, ?_⟩
  intro h
  have hc' : c' = (validate c).1 := by rw [h]
  subst hc'
  have hsnd : (validate c).2 = none := by rw [h]
  rw [validate_snd] at hsnd
  have herrs : validateErrs c = [] := by
    by_contra hne
    simp [hne] at hsnd
  have hblocks := herrs
  simp only [validateErrs, List.append_eq_nil] at hblocks
  obtain ⟨⟨⟨⟨⟨hn, hs⟩, hd⟩, hi⟩, hm⟩, ha⟩ := hblocks
  have hacc : (validate c).1.AccessControl = AccessOwnable ∨
      (validate c).1.AccessControl = AccessRoles ∨
      (validate c).1.AccessControl = AccessNone := by
    have hx : (validate c).1.AccessControl =
        (if c.AccessControl = "" then AccessOwnable else c.AccessControl) := rfl
    rcases eq_or_ne c.AccessControl "" with he | he
    · left; rw [hx, if_pos he]
    · have hcset : c.AccessControl = AccessOwnable ∨ c.AccessControl = AccessRoles ∨
          c.AccessControl = AccessNone ∨ c.AccessControl = "" := by
        by_contra hcon
        push_neg at hcon
        obtain ⟨g1, g2, g3, g4⟩ := hcon
        simp [acErrs, g1, g2, g3, g4] at ha
      rw [hx, if_neg he]
      rcases hcset with g1 | g1 | g1 | g1
      · exact Or.inl g1
      · exact Or.inr (Or.inl g1)
      · exact Or.inr (Or.inr g1)
      · exact absurd g1 he
  have hXn : nameErrs (validate c).1 = [] := by
    unfold nameErrs at hn ⊢
    rw [show (validate c).1.Name = c.Name from rfl]
    exact hn
  have hXs : symbolErrs (validate c).1 = [] := by
    unfold symbolErrs at hs ⊢
    rw [show (validate c).1.Symbol = c.Symbol from rfl]
    exact hs
  have hXd : decimalsErrs (validate c).1 = [] := by
    unfold decimalsErrs at hd ⊢
    rw [show (validate c).1.Decimals = c.Decimals from rfl]
    exact hd
  have hXi : initialErrs (validate c).1 = [] := by
    unfold initialErrs at hi ⊢
    rw [show (validate c).1.InitialSupply = c.InitialSupply from rfl]
    exact hi
  have hXm : maxErrs (validate c).1 = [] := by
    unfold maxErrs at hm ⊢
    rw [show (validate c).1.MaxSupply = c.MaxSupply from rfl,
      show (validate c).1.InitialSupply = c.InitialSupply from rfl]
    exact hm
  have hXa : acErrs (validate c).1 = [] := by
    rcases hacc with g | g | g <;> simp [acErrs, g]
  have hXerrs : validateErrs (validate c).1 = [] := by
    simp only [validateErrs, hXn, hXs, hXd, hXi, hXm, hXa, List.append_nil]
  have hXsnd : (validate (validate c).1).2 = none := by
    rw [validate_snd]
    simp [hXerrs]
  have hXfst : (validate (validate c).1).1 = (validate c).1 := by
    refine tokenConfig_eq_of_fields rfl rfl rfl rfl rfl rfl rfl rfl rfl ?_ rfl ?_ ?_ ?_ rfl rfl
    · rw [validate_Snapshot_eq, validate_Snapshot_eq,
        show (validate c).1.Votes = c.Votes from rfl]
      cases c.Snapshot <;> cases c.Votes <;> rfl
    · have hx : (validate (validate c).1).1.AccessControl =
          (if (validate c).1.AccessControl = "" then AccessOwnable
           else (validate c).1.AccessControl) := rfl
      rw [hx]
      rcases hacc with g | g | g <;> rw [g] <;>
        simp [AccessOwnable, AccessRoles, AccessNone]
    · have hx : (validate (validate c).1).1.License =
          (if (validate c).1.License = "" then "MIT" else (validate c).1.License) := rfl
      have hy : (validate c).1.License =
          (if c.License = "" then "MIT" else c.License) := rfl
      rw [hx, hy]
      rcases eq_or_ne c.License "" with g | g <;> simp [g]
    · have hx : (validate (validate c).1).1.SolidityVersion =
          (if (validate c).1.SolidityVersion = "" then "^0.8.24"
           else (validate c).1.SolidityVersion) := rfl
      have hy : (validate c).1.SolidityVersion =
          (if c.SolidityVersion = "" then "^0.8.24" else c.SolidityVersion) := rfl
      rw [hx, hy]
      rcases eq_or_ne c.SolidityVersion "" with g | g <;> simp [g]
  calc validate (validate c).1
      = ((validate (validate c).1).1, (validate (validate c).1).2) := rfl
    _ = ((validate c).1, none) := by rw [hXfst, hXsnd]

/-- C7 witness: validating the raw configuration (empty access control and
metadata, votes without snapshot) yields the normalized one with no error,
and re-validating the normalized one is a no-op. -/
theorem votes_snapshot_coupling_idempotent_witness :
    validate cfgNorm = (cfgNorm, none) :=
  (votes_snapshot_coupling_idempotent cfgRaw cfgNorm true true).2.2 (by decide)

end ERC20Gen
